import Mathlib

/-!
Shallow embedding of src/api/models.py from wisemodel/wisemodel-API.

The file under verification is initialization glue: it reads a process-wide
settings object and conditionally constructs retrieval models and at most one
generation engine.  We embed it as pure Lean functions over an explicit
`Settings` record (the fields of SETTINGS that the file reads) and an `Env`
record (oracles for the outcomes of third-party imports and constructors,
each an `Except PyError` value: `.ok` means the import/constructor succeeded,
`.error e` means it raised the Python exception modelled by `e`).

Python exceptions are modelled by `Except PyError`; a function body that would
raise returns `.error e`, and `except ImportError` clauses are translated as
a match that converts only `PyError.importError` into a normal return.
-/

/-- Python exception values, coarsely classified: the code under study only
distinguishes ImportError (caught in three constructors) from everything else. -/
inductive PyError where
  | importError (msg : String)
  | valueError (msg : String)
  | other (msg : String)
deriving DecidableEq

/-- True exactly on `PyError.importError`, mirroring `except ImportError`. -/
def PyError.isImportError : PyError → Bool
  | .importError _ => true
  | _ => false

/-- The string constant for the llm task name. -/
def strLLM : String := "llm"

/-- The string constant for the rag task name. -/
def strRag : String := "rag"

/-- The engine name selecting `create_hf_llm`. -/
def strDefault : String := "default"

/-- The engine name selecting `create_vllm_engine`. -/
def strVllm : String := "vllm"

/-- The engine name selecting `create_llama_cpp_engine`. -/
def strLlamaCpp : String := "llama.cpp"

/-- The engine name selecting `create_tgi_engine`. -/
def strTgi : String := "tgi"

/-- The empty string, used for Python falsiness of optional string settings. -/
def emptyStr : String := ""

/-- The fields of the pydantic SETTINGS object that src/api/models.py reads.
Optional string settings are `Option String`; Python `None` is `none`. -/
structure Settings where
  tasks : List String
  activate_inference : Bool
  engine : String
  model_name : String
  model_path : String
  chat_template : Option String
  context_length : Int
  use_streamer_v2 : Bool
  embedding_name : Option String
  rerank_name : Option String
  embedding_device : String
  rerank_device : String
  lora_modules : String
  max_num_batched_tokens : Int
  max_cpu_loras : Int
  quantization_method : Option String
  vllm_disable_log_stats : Bool
  tgi_endpoint : String
deriving DecidableEq

/-- Python truthiness of an `Optional[str]` setting: `None` and `""` are falsy. -/
def pyTruthy : Option String → Bool
  | none => false
  | some s => s != emptyStr

deriving instance DecidableEq for Except

/-- Outcomes of the third-party imports and constructors that
src/api/models.py calls.  Each field is the result the corresponding Python
operation would have in the ambient environment: `.ok` with the produced handle
(opaque handles are `Nat` ids), or `.error e` when it raises `e`. -/
structure Env where
  hf_import : Except PyError Unit
  load_model_and_tokenizer : Except PyError (Nat × Nat)
  default_engine_ctor : Except PyError Unit
  vllm_import : Except PyError Unit
  async_llm_engine_from_args : Except PyError Nat
  llama_cpp_import : Except PyError Unit
  llama_ctor : Except PyError Nat
  tgi_import : Except PyError Unit
  tgi_client_ctor : Except PyError Nat
  rag_embedding_import : Except PyError Unit
  rag_embedding_ctor : Except PyError Unit
  rag_reranker_import : Except PyError Unit
  rag_reranker_ctor : Except PyError Unit
deriving DecidableEq

/-- A constructed retrieval model handle: `RAGEmbedding(name, device)` or
`RAGReranker(name, device=device)` from `api.rag`. -/
inductive RagModel where
  | embedding (name : String) (device : String)
  | reranker (name : String) (device : String)
deriving DecidableEq

/-- `create_rag_models` (src/api/models.py lines 41-59): builds the list
`rag_models` by appending an embedding slot and a rerank slot when the rag
task is active, then returns it if it has length 2 and `[None, None]`
otherwise.  The `from api.rag import ...` statements and the model
constructors are env oracles and are NOT wrapped in any try/except. -/
def create_rag_models (s : Settings) (env : Env) :
    Except PyError (List (Option RagModel)) := do
  let rag_models : List (Option RagModel) ←
    if strRag ∈ s.tasks ∧ s.activate_inference = true then do
      let first : Option RagModel ←
        if pyTruthy s.embedding_name = true then do
          let _ ← env.rag_embedding_import
          let _ ← env.rag_embedding_ctor
          pure (some (RagModel.embedding (s.embedding_name.getD emptyStr)
            s.embedding_device))
        else pure none
      let second : Option RagModel ←
        if pyTruthy s.rerank_name = true then do
          let _ ← env.rag_reranker_import
          let _ ← env.rag_reranker_ctor
          pure (some (RagModel.reranker (s.rerank_name.getD emptyStr)
            s.rerank_device))
        else pure none
      pure [first, second]
    else pure []
  pure (if rag_models.length = 2 then rag_models else [none, none])

/-- The keys of the `include` set passed to `dictify` in `create_hf_llm`. -/
def hfIncludeKeys : List String :=
  ["device_map", "load_in_8bit", "load_in_4bit", "dtype", "rope_scaling",
   "flash_attn"]

/-- The `context_len` argument `create_hf_llm` passes to `DefaultEngine`:
`SETTINGS.context_length if SETTINGS.context_length > 0 else None`. -/
def defaultContextLen (s : Settings) : Option Int :=
  if s.context_length > 0 then some s.context_length else none

/-- The `DefaultEngine(...)` value built by `create_hf_llm`, recording the
arguments passed to the constructor. -/
structure DefaultEngineVal where
  model : Nat
  tokenizer : Nat
  model_name : String
  context_len : Option Int
  prompt_name : Option String
  use_streamer_v2 : Bool
deriving DecidableEq

/-- `create_hf_llm` (src/api/models.py lines 62-90): imports
`api.core.default` and `api.adapter.loader` (no try/except), calls
`load_model_and_tokenizer`, and returns a `DefaultEngine`.  Any exception
from any step propagates. -/
def create_hf_llm (s : Settings) (env : Env) : Except PyError DefaultEngineVal := do
  let _ ← env.hf_import
  let (model, tokenizer) ← env.load_model_and_tokenizer
  let _ ← env.default_engine_ctor
  pure { model := model
         tokenizer := tokenizer
         model_name := s.model_name
         context_len := defaultContextLen s
         prompt_name := s.chat_template
         use_streamer_v2 := s.use_streamer_v2 }

/-- The separator character of `SETTINGS.lora_modules` items. -/
def plusChar : Char := '+'

/-- The separator character inside one lora item. -/
def eqChar : Char := '='

/-- Python `str.isspace` characters, as used by `str.strip()`. -/
def isPySpace (c : Char) : Bool :=
  c = ' ' ∨ c = '\t' ∨ c = '\n' ∨ c = '\x0d' ∨ c = '\x0b' ∨ c = '\x0c'

/-- Python `str.strip()`: drop leading and trailing whitespace. -/
def pyStrip (s : List Char) : List Char :=
  ((s.dropWhile isPySpace).reverse.dropWhile isPySpace).reverse

/-- Python `str.split(sep)` for a one-character separator `sep`: always
returns at least one (possibly empty) part; `"".split(sep) == [""]`. -/
def splitOnChar (sep : Char) : List Char → List (List Char)
  | [] => [[]]
  | c :: cs =>
    if c = sep then [] :: splitOnChar sep cs
    else
      match splitOnChar sep cs with
      | [] => [[c]]
      | r :: rs => (c :: r) :: rs

/-- A `LoRA(name, path)` value built in `create_vllm_engine`. -/
structure LoRA where
  name : List Char
  path : List Char
deriving DecidableEq

/-- The ValueError message of a failed two-variable unpacking. -/
def msgUnpack : String := "too many values to unpack (expected 2)"

/-- The loop body of lines 132-135: for each item of the split, if `"="` is
in the item, unpack `item.split("=")` into exactly two variables (raising
ValueError when the split has more than two parts) and append a `LoRA`. -/
def parseLoraItems : List (List Char) → Except PyError (List LoRA)
  | [] => .ok []
  | item :: rest =>
    if eqChar ∈ item then
      match splitOnChar eqChar item with
      | [name, path] => do
        let tl ← parseLoraItems rest
        .ok ({ name := name, path := path } :: tl)
      | _ => .error (.valueError msgUnpack)
    else parseLoraItems rest

/-- Lines 131-135 of `create_vllm_engine`:
`for item in SETTINGS.lora_modules.strip().split("+"): ...`. -/
def parseLoraModules (s : List Char) : Except PyError (List LoRA) :=
  parseLoraItems (splitOnChar plusChar (pyStrip s))

/-- The keys of the `include` set passed to `dictify` in `create_vllm_engine`. -/
def vllmIncludeKeys : List String :=
  ["tokenizer_mode", "trust_remote_code", "tensor_parallel_size", "dtype",
   "gpu_memory_utilization", "max_num_seqs", "enforce_eager",
   "max_seq_len_to_capture", "max_loras", "max_lora_rank",
   "lora_extra_vocab_size"]

/-- The `AsyncEngineArgs(...)` record built by `create_vllm_engine`,
recording the explicitly spelled arguments (the `**kwargs` pass-through is
recorded by its key set). -/
structure AsyncEngineArgsVal where
  model : String
  max_num_batched_tokens : Option Int
  max_model_len : Option Int
  quantization : Option String
  max_cpu_loras : Option Int
  disable_log_stats : Bool
  disable_log_requests : Bool
  kwargs_keys : List String
deriving DecidableEq

/-- The arguments `create_vllm_engine` passes to `AsyncEngineArgs`
(src/api/models.py lines 117-126). -/
def asyncEngineArgsOf (s : Settings) : AsyncEngineArgsVal :=
  { model := s.model_path
    max_num_batched_tokens :=
      if s.max_num_batched_tokens > 0 then some s.max_num_batched_tokens else none
    max_model_len :=
      if s.context_length > 0 then some s.context_length else none
    quantization := s.quantization_method
    max_cpu_loras :=
      if s.max_cpu_loras > 0 then some s.max_cpu_loras else none
    disable_log_stats := s.vllm_disable_log_stats
    disable_log_requests := true
    kwargs_keys := vllmIncludeKeys }

/-- The `VllmEngine(...)` value built by `create_vllm_engine`. -/
structure VllmEngineVal where
  engine_args : AsyncEngineArgsVal
  engine_id : Nat
  model_name : String
  chat_template : Option String
  lora_modules : List LoRA
deriving DecidableEq

/-- The keys of the `include` set passed to `dictify` in
`create_llama_cpp_engine`. -/
def llamaCppIncludeKeys : List String :=
  ["n_gpu_layers", "main_gpu", "tensor_split", "n_batch", "n_threads",
   "n_threads_batch", "rope_scaling_type", "rope_freq_base",
   "rope_freq_scale"]

/-- The arguments `create_llama_cpp_engine` passes to `Llama`
(src/api/models.py lines 165-169). -/
structure LlamaArgsVal where
  model_path : String
  n_ctx : Int
  kwargs_keys : List String
deriving DecidableEq

/-- `Llama(model_path=..., n_ctx=SETTINGS.context_length if
SETTINGS.context_length > 0 else 2048, **kwargs)`. -/
def llamaArgsOf (s : Settings) : LlamaArgsVal :=
  { model_path := s.model_path
    n_ctx := if s.context_length > 0 then s.context_length else 2048
    kwargs_keys := llamaCppIncludeKeys }

/-- The `LlamaCppEngine(...)` value built by `create_llama_cpp_engine`. -/
structure LlamaCppEngineVal where
  args : LlamaArgsVal
  engine_id : Nat
  model_name : String
  chat_template : Option String
deriving DecidableEq

/-- The `TGIEngine(...)` value built by `create_tgi_engine`. -/
structure TGIEngineVal where
  client_id : Nat
  endpoint : String
  model_name : String
  chat_template : Option String
deriving DecidableEq

/-- A constructed generation engine, one of the four alternatives. -/
inductive EngineVal where
  | defaultE (d : DefaultEngineVal)
  | vllm (v : VllmEngineVal)
  | llamaCpp (v : LlamaCppEngineVal)
  | tgi (v : TGIEngineVal)
deriving DecidableEq

/-- `create_vllm_engine` (src/api/models.py lines 93-142): the imports are
wrapped in `try/except ImportError` returning `None`; afterwards
`AsyncEngineArgs` is built, `AsyncLLMEngine.from_engine_args` is called
(uncaught), lora modules are parsed (uncaught ValueError possible), and a
`VllmEngine` is returned. -/
def create_vllm_engine (s : Settings) (env : Env) :
    Except PyError (Option EngineVal) :=
  match env.vllm_import with
  | .error e => if e.isImportError then .ok none else .error e
  | .ok _ => do
    let engine_args := asyncEngineArgsOf s
    let engine_id ← env.async_llm_engine_from_args
    let lora_modules ← parseLoraModules s.lora_modules.toList
    pure (some (.vllm { engine_args := engine_args
                        engine_id := engine_id
                        model_name := s.model_name
                        chat_template := s.chat_template
                        lora_modules := lora_modules }))

/-- `create_llama_cpp_engine` (src/api/models.py lines 145-173): the imports
are wrapped in `try/except ImportError` returning `None`; afterwards `Llama`
is constructed (uncaught) and a `LlamaCppEngine` is returned. -/
def create_llama_cpp_engine (s : Settings) (env : Env) :
    Except PyError (Option EngineVal) :=
  match env.llama_cpp_import with
  | .error e => if e.isImportError then .ok none else .error e
  | .ok _ => do
    let args := llamaArgsOf s
    let engine_id ← env.llama_ctor
    pure (some (.llamaCpp { args := args
                            engine_id := engine_id
                            model_name := s.model_name
                            chat_template := s.chat_template }))

/-- `create_tgi_engine` (src/api/models.py lines 176-187): the imports are
wrapped in `try/except ImportError` returning `None`; afterwards
`AsyncClient(SETTINGS.tgi_endpoint)` is constructed (uncaught) and a
`TGIEngine` is returned. -/
def create_tgi_engine (s : Settings) (env : Env) :
    Except PyError (Option EngineVal) :=
  match env.tgi_import with
  | .error e => if e.isImportError then .ok none else .error e
  | .ok _ => do
    let client_id ← env.tgi_client_ctor
    pure (some (.tgi { client_id := client_id
                       endpoint := s.tgi_endpoint
                       model_name := s.model_name
                       chat_template := s.chat_template }))

/-- Which of the four engine constructors the module-level chain invokes. -/
inductive EngineKind where
  | hf
  | vllm
  | llamaCpp
  | tgi
deriving DecidableEq

/-- The module-level conditional chain (src/api/models.py lines 197-207),
instrumented: the first component lists the engine constructors invoked, the
second is the resulting binding of `LLM_ENGINE`.  In the result,
`.ok (some v)` means `LLM_ENGINE` is bound to `v` (itself `none` for Python
`None`), `.ok none` means the chain assigned nothing and the name stays
unbound (a later read raises NameError), `.error e` means a constructor
raised and module initialization failed. -/
def moduleLLMChain (s : Settings) (env : Env) :
    List EngineKind × Except PyError (Option (Option EngineVal)) :=
  if strLLM ∈ s.tasks ∧ s.activate_inference = true then
    if s.engine = strDefault then
      ([.hf], (create_hf_llm s env).map (fun d => some (some (.defaultE d))))
    else if s.engine = strVllm then
      ([.vllm], (create_vllm_engine s env).map some)
    else if s.engine = strLlamaCpp then
      ([.llamaCpp], (create_llama_cpp_engine s env).map some)
    else if s.engine = strTgi then
      ([.tgi], (create_tgi_engine s env).map some)
    else ([], .ok none)
  else ([], .ok (some none))

/-- The binding of the module-level `LLM_ENGINE` name after the chain runs. -/
def moduleLLMBinding (s : Settings) (env : Env) :
    Except PyError (Option (Option EngineVal)) :=
  (moduleLLMChain s env).2

/-- Whether the chain left `LLM_ENGINE` bound to a well-defined value. -/
def bindsValue (r : Except PyError (Option (Option EngineVal))) : Bool :=
  match r with
  | .ok (some _) => true
  | _ => false

/-- An environment where every import and constructor succeeds. -/
def okEnv : Env :=
  { hf_import := .ok ()
    load_model_and_tokenizer := .ok (0, 1)
    default_engine_ctor := .ok ()
    vllm_import := .ok ()
    async_llm_engine_from_args := .ok 2
    llama_cpp_import := .ok ()
    llama_ctor := .ok 3
    tgi_import := .ok ()
    tgi_client_ctor := .ok 4
    rag_embedding_import := .ok ()
    rag_embedding_ctor := .ok ()
    rag_reranker_import := .ok ()
    rag_reranker_ctor := .ok () }

/-- Specification-side description of one lora item's name: everything
before the first occurrence of the item-internal separator. -/
def loraNameOf (item : List Char) : List Char :=
  item.takeWhile (fun c => c != eqChar)

/-- Specification-side description of one lora item's path: everything
after the first occurrence of the item-internal separator. -/
def loraPathOf (item : List Char) : List Char :=
  (item.dropWhile (fun c => c != eqChar)).drop 1

/-- Specification-side description of lora parsing: one entry per
item containing the separator, in input order, items without it skipped. -/
def loraSpecParse (s : List Char) : List LoRA :=
  ((splitOnChar plusChar (pyStrip s)).filter (fun item => decide (eqChar ∈ item))).map
    (fun item => { name := loraNameOf item, path := loraPathOf item })

/-- A concrete settings value used to instantiate the theorems. -/
def baseSettings : Settings :=
  { tasks := []
    activate_inference := true
    engine := strDefault
    model_name := "m"
    model_path := "p"
    chat_template := none
    context_length := 0
    use_streamer_v2 := true
    embedding_name := none
    rerank_name := none
    embedding_device := "cpu"
    rerank_device := "cpu"
    lora_modules := ""
    max_num_batched_tokens := 0
    max_cpu_loras := 0
    quantization_method := none
    vllm_disable_log_stats := false
    tgi_endpoint := "http://localhost:8080" }

/-- A message for concrete missing-dependency errors in the witnesses. -/
def msgMissingDep : String := "missing dependency"

/-- A message for concrete non-ImportError failures in the witnesses. -/
def msgBoom : String := "boom"

/-- A concrete embedding model name. -/
def strE : String := "bge-large-zh"

/-- A concrete rerank model name. -/
def strR : String := "bge-reranker"

/-- A concrete device string. -/
def strCpu : String := "cpu"

/-- An engine name that none of the four branches recognizes. -/
def strUnknownEngine : String := "unknown-engine"

/-- Settings with the llm task active but an unrecognized engine name. -/
def unknownEngineSettings : Settings :=
  { baseSettings with tasks := [strLLM], engine := strUnknownEngine }

/-- Settings selecting the vllm engine. -/
def vllmSettings : Settings :=
  { baseSettings with tasks := [strLLM], engine := strVllm }

/-- Settings with the rag task active and both model names configured. -/
def ragSettings : Settings :=
  { baseSettings with
      tasks := [strRag]
      embedding_name := some strE
      rerank_name := some strR }

/-- Settings with the rag task active and only the embedding name set. -/
def mixedRagSettings : Settings :=
  { baseSettings with tasks := [strRag], embedding_name := some strE }

/-- Settings with the rag task active and only the rerank name set. -/
def mixedRagSettings2 : Settings :=
  { baseSettings with tasks := [strRag], rerank_name := some strR }

/-- Settings with the rag task active and neither model name set. -/
def ragNoneSettings : Settings :=
  { baseSettings with tasks := [strRag] }

/-- Settings with a positive context length. -/
def ctxSettings : Settings :=
  { baseSettings with context_length := 4096 }

/-- An environment where all three optional engine imports fail with
ImportError. -/
def importFailEnv : Env :=
  { okEnv with vllm_import := .error (.importError msgMissingDep)
               llama_cpp_import := .error (.importError msgMissingDep)
               tgi_import := .error (.importError msgMissingDep) }

/-- An environment where the imports of create_hf_llm fail with ImportError. -/
def hfImportFailEnv : Env :=
  { okEnv with hf_import := .error (.importError msgMissingDep) }

/-- An environment where the embedding-model import fails with ImportError. -/
def ragImportFailEnv : Env :=
  { okEnv with rag_embedding_import := .error (.importError msgMissingDep) }

/-- An environment where the imports of create_hf_llm fail with an error
that is not an ImportError. -/
def otherFailEnv : Env :=
  { okEnv with hf_import := .error (.other msgBoom) }

/-- An environment where the vllm import fails with an error that is not an
ImportError. -/
def vllmOtherFailEnv : Env :=
  { okEnv with vllm_import := .error (.other msgBoom) }

/-- `pure` in the `Except` monad is `Except.ok`. -/
@[simp] theorem pureEqOk {ε α : Type} (a : α) : (pure a : Except ε α) = .ok a := rfl

/-- Bind on a successful `Except` applies the continuation. -/
@[simp] theorem bindOk {ε α β : Type} (a : α) (f : α → Except ε β) :
    (Except.ok a >>= f : Except ε β) = f a := rfl

/-- Bind on a failed `Except` keeps the error. -/
@[simp] theorem bindErr {ε α β : Type} (e : ε) (f : α → Except ε β) :
    (Except.error e >>= f : Except ε β) = .error e := rfl

/-- Map on a successful `Except` applies the function. -/
@[simp] theorem mapOk {ε α β : Type} (a : α) (f : α → β) :
    (Except.ok a : Except ε α).map f = .ok (f a) := rfl

/-- Map on a failed `Except` keeps the error. -/
@[simp] theorem mapErr {ε α β : Type} (e : ε) (f : α → β) :
    (Except.error e : Except ε α).map f = .error e := rfl

/-- Python `split` never returns an empty list of parts. -/
theorem splitOnChar_ne_nil (sep : Char) (l : List Char) :
    splitOnChar sep l ≠ [] := by
  induction l with
  | nil => simp [splitOnChar]
  | cons c cs ih =>
    by_cases h : c = sep
    · simp [splitOnChar, h]
    · simp only [splitOnChar, if_neg h]
      cases hs : splitOnChar sep cs with
      | nil => simp
      | cons r rs => simp

/-- Splitting a list not containing the separator yields that list alone. -/
theorem splitOnChar_of_not_mem (sep : Char) (l : List Char) (h : sep ∉ l) :
    splitOnChar sep l = [l] := by
  induction l with
  | nil => rfl
  | cons c cs ih =>
    have hc : ¬ c = sep := fun hh => h (hh ▸ List.mem_cons_self c cs)
    have hcs : sep ∉ cs := fun hh => h (List.mem_cons_of_mem c hh)
    simp only [splitOnChar, if_neg hc, ih hcs]

/-- Splitting a list containing exactly one occurrence of the separator
yields exactly the part before it and the part after it. -/
theorem splitOnChar_of_single (sep : Char) (l : List Char)
    (hmem : sep ∈ l) (hcount : l.count sep ≤ 1) :
    splitOnChar sep l =
      [l.takeWhile (fun c => c != sep), (l.dropWhile (fun c => c != sep)).drop 1] := by
  induction l with
  | nil => cases hmem
  | cons c cs ih =>
    by_cases h : c = sep
    · subst h
      have h1 := List.count_cons_self c cs
      have h0 : cs.count c = 0 := by omega
      have hnot : c ∉ cs := by rwa [List.count_eq_zero] at h0
      simp [splitOnChar, splitOnChar_of_not_mem c cs hnot, List.takeWhile_cons,
        List.dropWhile_cons]
    · have hmem2 : sep ∈ cs := by
        cases List.mem_cons.mp hmem with
        | inl hh => exact absurd hh.symm h
        | inr hh => exact hh
      have hcount2 : cs.count sep ≤ 1 := by
        rw [List.count_cons] at hcount
        split at hcount <;> omega
      have hbne : (c != sep) = true := by simpa [bne_iff_ne] using h
      simp [splitOnChar, if_neg h, ih hmem2 hcount2, List.takeWhile_cons,
        List.dropWhile_cons, hbne]

/-- When every item has at most one internal separator, the parsing loop
succeeds and produces one entry per item containing the separator, in input
order, skipping items without it. -/
theorem parseLoraItems_of_count_le_one (items : List (List Char))
    (h : ∀ item ∈ items, item.count eqChar ≤ 1) :
    parseLoraItems items =
      .ok ((items.filter (fun item => decide (eqChar ∈ item))).map
        (fun item => { name := loraNameOf item, path := loraPathOf item })) := by
  induction items with
  | nil => rfl
  | cons item rest ih =>
    have hrest : ∀ it ∈ rest, it.count eqChar ≤ 1 :=
      fun it hit => h it (List.mem_cons_of_mem item hit)
    by_cases hmem : eqChar ∈ item
    · have hsplit := splitOnChar_of_single eqChar item hmem
        (h item (List.mem_cons_self item rest))
      simp only [parseLoraItems, if_pos hmem, hsplit, ih hrest, bindOk,
        List.filter_cons, List.map_cons, decide_eq_true hmem, if_pos]
      rfl
    · simp only [parseLoraItems, if_neg hmem, ih hrest, List.filter_cons]
      have : decide (eqChar ∈ item) = false := decide_eq_false hmem
      simp [this]

/-- Claim C8: `create_vllm_engine` splits the stripped `SETTINGS.lora_modules`
string on the item separator; for every input whose items each contain at
most one internal separator it produces exactly one `LoRA(name, path)` entry
per item containing one, in input order, silently skipping items without one
(name is the part before the separator, path the part after); and for an
input whose item contains two or more internal separators the two-variable
unpacking raises. -/
theorem c8_lora_parsing :
    (∀ s : List Char,
        (∀ item ∈ splitOnChar plusChar (pyStrip s), item.count eqChar ≤ 1) →
        parseLoraModules s = .ok (loraSpecParse s)) ∧
    parseLoraModules ("a==b".toList) = .error (.valueError msgUnpack) := by
  constructor
  · intro s hs
    unfold parseLoraModules loraSpecParse
    exact parseLoraItems_of_count_le_one _ hs
  · rfl

/-- Witness for C8: the parsing equation instantiated at a concrete input. -/
theorem c8_witness :
    parseLoraModules (" a=x+b=y+skip ".toList) =
      .ok (loraSpecParse (" a=x+b=y+skip ".toList)) :=
  c8_lora_parsing.1 (" a=x+b=y+skip ".toList) (by decide)

/-- Claim C2: for each of `create_vllm_engine`, `create_llama_cpp_engine`
and `create_tgi_engine`, an ImportError raised by the third-party import is
caught inside the constructor and the constructor returns None instead of
propagating the exception. -/
theorem c2_import_error_caught (s : Settings) (env : Env) (m : String) :
    (env.vllm_import = .error (.importError m) →
      create_vllm_engine s env = .ok none) ∧
    (env.llama_cpp_import = .error (.importError m) →
      create_llama_cpp_engine s env = .ok none) ∧
    (env.tgi_import = .error (.importError m) →
      create_tgi_engine s env = .ok none) := by
  refine ⟨fun h => ?_, fun h => ?_, fun h => ?_⟩ <;>
    simp [create_vllm_engine, create_llama_cpp_engine, create_tgi_engine, h,
      PyError.isImportError]

/-- Witness for C2: in an environment where all three optional imports fail
with ImportError, all three constructors return None. -/
theorem c2_witness :
    create_vllm_engine baseSettings importFailEnv = .ok none ∧
    create_llama_cpp_engine baseSettings importFailEnv = .ok none ∧
    create_tgi_engine baseSettings importFailEnv = .ok none :=
  ⟨(c2_import_error_caught baseSettings importFailEnv msgMissingDep).1 rfl,
   (c2_import_error_caught baseSettings importFailEnv msgMissingDep).2.1 rfl,
   (c2_import_error_caught baseSettings importFailEnv msgMissingDep).2.2 rfl⟩

/-- Claim C5: for every settings and environment, the module-level chain
invokes at most one of the four engine constructors. -/
theorem c5_at_most_one_engine (s : Settings) (env : Env) :
    (moduleLLMChain s env).1.length ≤ 1 := by
  unfold moduleLLMChain
  split_ifs <;> simp

/-- Claim C1 counterexample: with the llm task active, inference activated,
and an engine name outside the four recognized ones, the chain assigns
nothing, so `LLM_ENGINE` does not end up bound to a well-defined value
(reading it later raises NameError). -/
theorem c1_counterexample :
    (strLLM ∈ unknownEngineSettings.tasks ∧
      unknownEngineSettings.activate_inference = true) ∧
    bindsValue (moduleLLMBinding unknownEngineSettings okEnv) = false := by
  decide

/-- Claim C1 (amended): when the llm task is active and inference is
activated, the chain binds `LLM_ENGINE` to the result of exactly the
constructor named by the engine setting for each of the four recognized
names, and leaves `LLM_ENGINE` unbound for any other name; when the llm
task is inactive or inference is deactivated, `LLM_ENGINE` is bound to
None. -/
theorem c1_engine_dispatch (s : Settings) (env : Env) :
    ((strLLM ∈ s.tasks ∧ s.activate_inference = true) →
      (s.engine = strDefault →
        moduleLLMBinding s env =
          (create_hf_llm s env).map (fun d => some (some (.defaultE d)))) ∧
      (s.engine = strVllm →
        moduleLLMBinding s env = (create_vllm_engine s env).map some) ∧
      (s.engine = strLlamaCpp →
        moduleLLMBinding s env = (create_llama_cpp_engine s env).map some) ∧
      (s.engine = strTgi →
        moduleLLMBinding s env = (create_tgi_engine s env).map some) ∧
      (s.engine ≠ strDefault → s.engine ≠ strVllm → s.engine ≠ strLlamaCpp →
        s.engine ≠ strTgi → moduleLLMBinding s env = .ok none)) ∧
    (¬(strLLM ∈ s.tasks ∧ s.activate_inference = true) →
      moduleLLMBinding s env = .ok (some none)) := by
  constructor
  · intro hact
    refine ⟨fun h => ?_, fun h => ?_, fun h => ?_, fun h => ?_,
      fun h1 h2 h3 h4 => ?_⟩
    · simp [moduleLLMBinding, moduleLLMChain, hact, h, strDefault, strVllm,
        strLlamaCpp, strTgi]
    · simp [moduleLLMBinding, moduleLLMChain, hact, h, strDefault, strVllm,
        strLlamaCpp, strTgi]
    · simp [moduleLLMBinding, moduleLLMChain, hact, h, strDefault, strVllm,
        strLlamaCpp, strTgi]
    · simp [moduleLLMBinding, moduleLLMChain, hact, h, strDefault, strVllm,
        strLlamaCpp, strTgi]
    · simp [moduleLLMBinding, moduleLLMChain, hact, h1, h2, h3, h4]
  · intro hnact
    simp [moduleLLMBinding, moduleLLMChain, hnact]

/-- Witness for C1 (amended): concrete dispatch to the vllm constructor and
concrete binding to None when the llm task is inactive. -/
theorem c1_witness :
    moduleLLMBinding vllmSettings okEnv =
      (create_vllm_engine vllmSettings okEnv).map some ∧
    moduleLLMBinding baseSettings okEnv = .ok (some none) :=
  ⟨((c1_engine_dispatch vllmSettings okEnv).1 (by decide)).2.1 rfl,
   (c1_engine_dispatch baseSettings okEnv).2 (by decide)⟩

/-- Claim C3 counterexample: `create_hf_llm` and `create_rag_models` have no
try/except; a library import failing at import time propagates out of the
constructor instead of degrading to a null handle. -/
theorem c3_counterexample :
    create_hf_llm baseSettings hfImportFailEnv =
      .error (.importError msgMissingDep) ∧
    create_rag_models ragSettings ragImportFailEnv =
      .error (.importError msgMissingDep) := by
  constructor <;> rfl

/-- Claim C3 (amended): only the three alternate engine constructors
(`create_vllm_engine`, `create_llama_cpp_engine`, `create_tgi_engine`)
catch a missing library at import time and degrade to a null handle;
`create_hf_llm` and `create_rag_models` have no try/except, so an
ImportError from their imports propagates out of the constructor. -/
theorem c3_missing_library_handling (s : Settings) (env : Env) (m : String) :
    (env.vllm_import = .error (.importError m) →
      create_vllm_engine s env = .ok none) ∧
    (env.llama_cpp_import = .error (.importError m) →
      create_llama_cpp_engine s env = .ok none) ∧
    (env.tgi_import = .error (.importError m) →
      create_tgi_engine s env = .ok none) ∧
    (env.hf_import = .error (.importError m) →
      create_hf_llm s env = .error (.importError m)) ∧
    (strRag ∈ s.tasks ∧ s.activate_inference = true →
      pyTruthy s.embedding_name = true →
      env.rag_embedding_import = .error (.importError m) →
      create_rag_models s env = .error (.importError m)) := by
  refine ⟨fun h => ?_, fun h => ?_, fun h => ?_, fun h => ?_,
    fun hact hemb h => ?_⟩
  · simp [create_vllm_engine, h, PyError.isImportError]
  · simp [create_llama_cpp_engine, h, PyError.isImportError]
  · simp [create_tgi_engine, h, PyError.isImportError]
  · simp [create_hf_llm, h]
  · simp [create_rag_models, hact, hemb, h]

/-- Witness for C3 (amended): concrete instances of all five conjuncts. -/
theorem c3_witness :
    create_vllm_engine baseSettings importFailEnv = .ok none ∧
    create_llama_cpp_engine baseSettings importFailEnv = .ok none ∧
    create_tgi_engine baseSettings importFailEnv = .ok none ∧
    create_hf_llm baseSettings hfImportFailEnv =
      .error (.importError msgMissingDep) ∧
    create_rag_models ragSettings ragImportFailEnv =
      .error (.importError msgMissingDep) :=
  ⟨(c3_missing_library_handling baseSettings importFailEnv msgMissingDep).1 rfl,
   (c3_missing_library_handling baseSettings importFailEnv msgMissingDep).2.1 rfl,
   (c3_missing_library_handling baseSettings importFailEnv msgMissingDep).2.2.1 rfl,
   (c3_missing_library_handling baseSettings hfImportFailEnv msgMissingDep).2.2.2.1 rfl,
   (c3_missing_library_handling ragSettings ragImportFailEnv msgMissingDep).2.2.2.2
     (by decide) (by decide) rfl⟩

/-- Claim C4 counterexample: with the rag task active, inference activated,
the embedding name set and the rerank name unset, `create_rag_models`
returns a mixed pair, not a pair of null handles. -/
theorem c4_counterexample :
    create_rag_models mixedRagSettings okEnv =
      .ok [some (RagModel.embedding strE strCpu), none] ∧
    create_rag_models mixedRagSettings okEnv ≠ .ok [none, none] := by
  decide

/-- Claim C4 (amended): `create_rag_models` returns a pair of null handles
whenever the rag task is inactive or inference is deactivated, and also when
both model names are unset; when the task is active and both names are set
(and the imports and constructors succeed) it returns a pair of two
constructed model handles.  (With exactly one name set it returns a mixed
pair; see the C7 theorem.) -/
theorem c4_rag_defaults (s : Settings) (env : Env) :
    (¬(strRag ∈ s.tasks ∧ s.activate_inference = true) →
      create_rag_models s env = .ok [none, none]) ∧
    (strRag ∈ s.tasks ∧ s.activate_inference = true →
      pyTruthy s.embedding_name = false → pyTruthy s.rerank_name = false →
      create_rag_models s env = .ok [none, none]) ∧
    (strRag ∈ s.tasks ∧ s.activate_inference = true →
      pyTruthy s.embedding_name = true → pyTruthy s.rerank_name = true →
      env.rag_embedding_import = .ok () → env.rag_embedding_ctor = .ok () →
      env.rag_reranker_import = .ok () → env.rag_reranker_ctor = .ok () →
      create_rag_models s env =
        .ok [some (RagModel.embedding (s.embedding_name.getD emptyStr)
               s.embedding_device),
             some (RagModel.reranker (s.rerank_name.getD emptyStr)
               s.rerank_device)]) := by
  refine ⟨fun hnact => ?_, fun hact hemb hrr => ?_,
    fun hact hemb hrr h1 h2 h3 h4 => ?_⟩
  · simp [create_rag_models, hnact]
  · simp [create_rag_models, hact, hemb, hrr]
  · simp [create_rag_models, hact, hemb, hrr, h1, h2, h3, h4]

/-- Witness for C4 (amended): concrete instances of all three conjuncts. -/
theorem c4_witness :
    create_rag_models baseSettings okEnv = .ok [none, none] ∧
    create_rag_models ragNoneSettings okEnv = .ok [none, none] ∧
    create_rag_models ragSettings okEnv =
      .ok [some (RagModel.embedding strE strCpu),
           some (RagModel.reranker strR strCpu)] :=
  ⟨(c4_rag_defaults baseSettings okEnv).1 (by decide),
   (c4_rag_defaults ragNoneSettings okEnv).2.1 (by decide) rfl rfl,
   (c4_rag_defaults ragSettings okEnv).2.2 (by decide) rfl rfl rfl rfl rfl rfl⟩

/-- Claim C6: only missing-dependency errors are handled.  Any error that is
not an ImportError raised during engine or model construction — at an import
site, from `load_model_and_tokenizer` or the `DefaultEngine` constructor
inside `create_hf_llm`, from `AsyncLLMEngine.from_engine_args` inside
`create_vllm_engine` after the imports succeed, from the `Llama` or
`AsyncClient` constructors, or from the retrieval model imports and
constructors — is caught by no create function and propagates out. -/
theorem c6_non_import_errors_propagate (s : Settings) (env : Env) (e : PyError)
    (he : e.isImportError = false) :
    (env.hf_import = .error e → create_hf_llm s env = .error e) ∧
    (env.hf_import = .ok () → env.load_model_and_tokenizer = .error e →
      create_hf_llm s env = .error e) ∧
    (∀ mt : Nat × Nat, env.hf_import = .ok () →
      env.load_model_and_tokenizer = .ok mt → env.default_engine_ctor = .error e →
      create_hf_llm s env = .error e) ∧
    (env.vllm_import = .error e → create_vllm_engine s env = .error e) ∧
    (env.vllm_import = .ok () → env.async_llm_engine_from_args = .error e →
      create_vllm_engine s env = .error e) ∧
    (env.llama_cpp_import = .error e → create_llama_cpp_engine s env = .error e) ∧
    (env.llama_cpp_import = .ok () → env.llama_ctor = .error e →
      create_llama_cpp_engine s env = .error e) ∧
    (env.tgi_import = .error e → create_tgi_engine s env = .error e) ∧
    (env.tgi_import = .ok () → env.tgi_client_ctor = .error e →
      create_tgi_engine s env = .error e) ∧
    (strRag ∈ s.tasks ∧ s.activate_inference = true →
      pyTruthy s.embedding_name = true →
      env.rag_embedding_import = .ok () → env.rag_embedding_ctor = .error e →
      create_rag_models s env = .error e) := by
  refine ⟨fun h1 => ?_, fun h1 h2 => ?_, fun mt h1 h2 h3 => ?_,
    fun h1 => ?_, fun h1 h2 => ?_, fun h1 => ?_, fun h1 h2 => ?_,
    fun h1 => ?_, fun h1 h2 => ?_, fun hact hemb h1 h2 => ?_⟩
  · simp [create_hf_llm, h1]
  · simp [create_hf_llm, h1, h2]
  · obtain ⟨m0, t0⟩ := mt
    simp [create_hf_llm, h1, h2, h3]
  · simp [create_vllm_engine, h1, he]
  · simp [create_vllm_engine, h1, h2]
  · simp [create_llama_cpp_engine, h1, he]
  · simp [create_llama_cpp_engine, h1, h2]
  · simp [create_tgi_engine, h1, he]
  · simp [create_tgi_engine, h1, h2]
  · simp [create_rag_models, hact, hemb, h1, h2]

/-- Witness for C6: a non-ImportError failure of the hf imports and a
non-ImportError failure of the vllm imports both propagate out. -/
theorem c6_witness :
    create_hf_llm baseSettings otherFailEnv = .error (.other msgBoom) ∧
    create_vllm_engine baseSettings vllmOtherFailEnv = .error (.other msgBoom) :=
  ⟨(c6_non_import_errors_propagate baseSettings otherFailEnv (.other msgBoom)
      rfl).1 rfl,
   (c6_non_import_errors_propagate baseSettings vllmOtherFailEnv (.other msgBoom)
      rfl).2.2.2.1 rfl⟩

/-- Claim C7: whenever `create_rag_models` returns normally, the result is a
list of exactly two elements, each a constructed handle or None, so the
module-level two-variable destructuring never fails; and a partially
configured rag task yields a mixed pair with exactly one null entry. -/
theorem c7_rag_pair_shape (s : Settings) (env : Env)
    (r : List (Option RagModel))
    (h : create_rag_models s env = .ok r) :
    r.length = 2 ∧
    (strRag ∈ s.tasks ∧ s.activate_inference = true →
      pyTruthy s.embedding_name = true → pyTruthy s.rerank_name = false →
      ∃ m, r = [some m, none]) ∧
    (strRag ∈ s.tasks ∧ s.activate_inference = true →
      pyTruthy s.embedding_name = false → pyTruthy s.rerank_name = true →
      ∃ m, r = [none, some m]) := by
  by_cases hact : strRag ∈ s.tasks ∧ s.activate_inference = true
  · cases hemb : pyTruthy s.embedding_name with
    | false =>
      cases hrr : pyTruthy s.rerank_name with
      | false =>
        simp [create_rag_models, hact, hemb, hrr] at h
        subst h
        exact ⟨rfl, fun _ he _ => by simp [hemb] at he,
          fun _ _ hr => by simp [hrr] at hr⟩
      | true =>
        cases h3 : env.rag_reranker_import with
        | error e => simp [create_rag_models, hact, hemb, hrr, h3] at h
        | ok u3 =>
          cases h4 : env.rag_reranker_ctor with
          | error e => simp [create_rag_models, hact, hemb, hrr, h3, h4] at h
          | ok u4 =>
            simp [create_rag_models, hact, hemb, hrr, h3, h4] at h
            subst h
            exact ⟨rfl, fun _ he _ => by simp [hemb] at he,
              fun _ _ _ => ⟨_, rfl⟩⟩
    | true =>
      cases h1 : env.rag_embedding_import with
      | error e => simp [create_rag_models, hact, hemb, h1] at h
      | ok u1 =>
        cases h2 : env.rag_embedding_ctor with
        | error e => simp [create_rag_models, hact, hemb, h1, h2] at h
        | ok u2 =>
          cases hrr : pyTruthy s.rerank_name with
          | false =>
            simp [create_rag_models, hact, hemb, hrr, h1, h2] at h
            subst h
            exact ⟨rfl, fun _ _ _ => ⟨_, rfl⟩,
              fun _ he _ => by simp [hemb] at he⟩
          | true =>
            cases h3 : env.rag_reranker_import with
            | error e =>
              simp [create_rag_models, hact, hemb, hrr, h1, h2, h3] at h
            | ok u3 =>
              cases h4 : env.rag_reranker_ctor with
              | error e =>
                simp [create_rag_models, hact, hemb, hrr, h1, h2, h3, h4] at h
              | ok u4 =>
                simp [create_rag_models, hact, hemb, hrr, h1, h2, h3, h4] at h
                subst h
                exact ⟨rfl, fun _ _ hr => by simp [hrr] at hr,
                  fun _ he _ => by simp [hemb] at he⟩
  · simp [create_rag_models, hact] at h
    subst h
    exact ⟨rfl, fun ha => absurd ha hact, fun ha => absurd ha hact⟩

/-- Witness for C7: the concrete mixed pair produced with only the embedding
name configured has length two and exactly one null entry. -/
theorem c7_witness :
    ([some (RagModel.embedding strE strCpu), none] :
        List (Option RagModel)).length = 2 ∧
    ∃ m, ([some (RagModel.embedding strE strCpu), none] :
        List (Option RagModel)) = [some m, none] := by
  have h := c7_rag_pair_shape mixedRagSettings okEnv
    [some (RagModel.embedding strE strCpu), none] (by decide)
  exact ⟨h.1, h.2.1 (by decide) rfl rfl⟩

/-- Claim C9: a nonpositive context_length is treated as unset, but with a
different substitute per engine: `create_hf_llm` passes `context_len=None`
to `DefaultEngine` and `create_vllm_engine` passes `max_model_len=None` to
`AsyncEngineArgs`, while `create_llama_cpp_engine` passes the concrete
default `n_ctx=2048` to `Llama`; a positive context_length is passed
through unchanged by all three. -/
theorem c9_context_length (s : Settings) :
    (s.context_length ≤ 0 →
      defaultContextLen s = none ∧
      (asyncEngineArgsOf s).max_model_len = none ∧
      (llamaArgsOf s).n_ctx = 2048) ∧
    (0 < s.context_length →
      defaultContextLen s = some s.context_length ∧
      (asyncEngineArgsOf s).max_model_len = some s.context_length ∧
      (llamaArgsOf s).n_ctx = s.context_length) := by
  constructor
  · intro h
    have hn : ¬ s.context_length > 0 := by omega
    simp [defaultContextLen, asyncEngineArgsOf, llamaArgsOf, hn]
  · intro h
    simp [defaultContextLen, asyncEngineArgsOf, llamaArgsOf, h]

/-- Witness for C9: concrete nonpositive and positive context lengths. -/
theorem c9_witness :
    (defaultContextLen baseSettings = none ∧
      (asyncEngineArgsOf baseSettings).max_model_len = none ∧
      (llamaArgsOf baseSettings).n_ctx = 2048) ∧
    (defaultContextLen ctxSettings = some ctxSettings.context_length ∧
      (asyncEngineArgsOf ctxSettings).max_model_len =
        some ctxSettings.context_length ∧
      (llamaArgsOf ctxSettings).n_ctx = ctxSettings.context_length) :=
  ⟨(c9_context_length baseSettings).1 (by decide),
   (c9_context_length ctxSettings).2 (by decide)⟩
